import Mathlib

/-!
Verification of the ollama-backend repository against its specification.

The repository is a set of Python scripts around a locally hosted LLM
server.  The central piece is the bounded tool-augmented agent loop in
`src/backend/langgraph-project/langgraph_agent.py` (class `OllamaAgent`),
plus small client wrappers in `example_usage.py` and
`src/backend/usage/ollama_service.py`.

Shallow-embedding conventions used throughout this file:
* The external LLM, the external tool-execution node (`langgraph`'s
  `ToolNode`), Python's `eval`, the wall clock, the `docker ps`
  subprocess, the HTTP probe and `json.loads` are black boxes for this
  repository; each is passed in as an explicit oracle argument.
* A Python call that may raise is modelled with `Except String α`
  (the `String` is the exception text) or with a dedicated inductive
  whose `exn` constructor carries the exception text.
* LangGraph state channels: `AgentState.messages` is declared
  `Annotated[List[...], operator.add]`, so the messages list a node
  returns is APPENDED to the existing list by the framework; every
  other field is replaced by the returned value.  The node functions
  below already perform that merge, so they map a state to the merged
  successor state.
* `graph.invoke` has a recursion limit; we model it with explicit fuel.
  Running out of fuel corresponds to the framework raising
  `GraphRecursionError`, modelled as `none`.
-/

/-- Python substring test helper: does the character list start with `pat`? -/
def charsStartWith : List Char → List Char → Bool
  | [], _ => true
  | _ :: _, [] => false
  | p :: ps, c :: cs => p == c && charsStartWith ps cs

/-- Python substring test helper: does the character list contain `pat`
as a contiguous subsequence? -/
def charsContain (pat : List Char) : List Char → Bool
  | [] => pat.isEmpty
  | c :: cs => charsStartWith pat (c :: cs) || charsContain pat cs

/-- The Python expression `pat in s` on strings: contiguous substring test
(true for the empty pattern, as in Python). -/
def py_in (pat s : String) : Bool :=
  charsContain pat.toList s.toList

/-- The Python expression `s.lower()`: lowercase every character (all
strings this repository lowercases are ASCII, where `Char.toLower`
agrees with Python). -/
def py_lower (s : String) : String :=
  ⟨s.data.map Char.toLower⟩

/-- Role-tagged messages of the conversation (`langchain_core.messages`).
`ai` carries the `tool_calls` field (a list of requested tool invocations,
kept abstract as strings); the other message classes have no `tool_calls`
attribute.  `toolMsg` is the `ToolMessage` produced by the tool node. -/
inductive Message where
  | human (content : String)
  | system (content : String)
  | ai (content : String) (tool_calls : List String)
  | toolMsg (content : String)
  deriving DecidableEq, Repr

/-- Every message class has a `content` attribute. -/
def Message.content : Message → String
  | .human c => c
  | .system c => c
  | .ai c _ => c
  | .toolMsg c => c

/-- `hasattr(m, "tool_calls")` and the field's value: only `AIMessage`
has the attribute, and an absent attribute behaves like the empty list
in the truthiness test of `_should_continue`. -/
def Message.tool_calls : Message → List String
  | .ai _ tc => tc
  | _ => []

/-- `isinstance(m, AIMessage)`. -/
def Message.isAI : Message → Bool
  | .ai _ _ => true
  | _ => false

/-- Result of one `self.llm_with_tools.invoke(...)` call: the response can
be a plain string, an already-constructed message object, or the call can
raise (carrying the exception text `str(e)`). -/
inductive LLMResult where
  | strResp (s : String)
  | msgResp (m : Message)
  | exn (e : String)
  deriving DecidableEq, Repr

/-- The agent state TypedDict (`AgentState` in langgraph_agent.py). -/
structure AgentState where
  messages : List Message
  task : String
  result : String
  iterations : Nat
  max_iterations : Nat
  deriving DecidableEq, Repr

/-- The fixed system message `_agent_node` prepends on every model call. -/
def system_message : Message :=
  .system ("You are a helpful AI assistant with access to tools. \n" ++
    "When you need to use a tool, format your response to indicate which tool to use.\n" ++
    "Always think step-by-step and use tools when appropriate.\n" ++
    "After using tools, provide a clear final answer to the user.")

/-- `OllamaAgent._agent_node`.  `llm` is the oracle for
`self.llm_with_tools.invoke`; `max_iterations` is `self.max_iterations`.
Returns the merged successor state together with the number of model
calls made (0 or 1).

Note on the first branch: the Python code returns `{**state, ...}`,
which includes the `"messages"` key holding the full current list; the
`operator.add` reducer therefore appends that list to itself. -/
def OllamaAgent.agent_node (llm : List Message → LLMResult)
    (max_iterations : Nat) (state : AgentState) : AgentState × Nat :=
  if max_iterations ≤ state.iterations then
    ({ state with
        messages := state.messages ++ state.messages,
        result := "Maximum iterations reached." }, 0)
  else
    match llm (system_message :: state.messages) with
    | .strResp s =>
        ({ state with
            messages := state.messages ++ [Message.ai s []],
            iterations := state.iterations + 1 }, 1)
    | .msgResp m =>
        ({ state with
            messages := state.messages ++ [m],
            iterations := state.iterations + 1 }, 1)
    | .exn e =>
        ({ state with
            messages := state.messages ++ [Message.ai ("Error: " ++ e) []],
            iterations := state.iterations + 1 }, 1)

/-- The keyword fallback list of `_should_continue`. -/
def tool_indicators : List String :=
  ["calculate", "time", "docker", "search", "memory"]

/-- `OllamaAgent._should_continue`.  The Python function first reads
`messages[-1]` (which would raise on an empty list — unreachable from
`run`, whose initial state already holds the task message; we return
"end" in that vacuous case), then checks the iteration limit, then the
`tool_calls` attribute, then the keyword fallback on the lowercased
content of a final `AIMessage`. -/
def OllamaAgent.should_continue (max_iterations : Nat) (state : AgentState) : String :=
  match state.messages.getLast? with
  | none => "end"
  | some last_message =>
    if max_iterations ≤ state.iterations then "end"
    else if last_message.tool_calls ≠ [] then "continue"
    else if last_message.isAI &&
        (tool_indicators.any fun indicator => py_in indicator (py_lower last_message.content)) then
      "continue"
    else "end"

/-- The `tools` node (`langgraph.prebuilt.ToolNode`): external library
code that executes the requested tool calls and returns
`{"messages": [tool results]}`, which the reducer appends; no other state
field is touched.  The messages it produces are an oracle `tn`. -/
def tools_node (tn : List Message → List Message) (state : AgentState) : AgentState :=
  { state with messages := state.messages ++ tn state.messages }

/-- The compiled graph of `_create_graph`, run by `graph.invoke`:
entry point `agent`; after `agent`, `_should_continue` routes
`"continue"` to `tools` (which always returns to `agent`) and `"end"`
to END.  `fuel` models the framework's recursion limit: `none` stands
for `GraphRecursionError`.  The second component counts model calls. -/
def graph_invoke (llm : List Message → LLMResult) (tn : List Message → List Message)
    (max_iterations : Nat) : Nat → AgentState → Option AgentState × Nat
  | 0, _ => (none, 0)
  | fuel + 1, state =>
    let step := OllamaAgent.agent_node llm max_iterations state
    if OllamaAgent.should_continue max_iterations step.1 = "continue" then
      let rest := graph_invoke llm tn max_iterations fuel (tools_node tn step.1)
      (rest.1, step.2 + rest.2)
    else
      (some step.1, step.2)

/-- The initial state built by `OllamaAgent.run`. -/
def initial_state (task : String) (max_iterations : Nat) : AgentState :=
  { messages := [Message.human task]
    task := task
    result := ""
    iterations := 0
    max_iterations := max_iterations }

/-- `OllamaAgent.run` (return value only; the verbose printing is a
console side effect).  It invokes the graph on the initial state and
returns the content of the final message list's last element; if the
graph raises (recursion limit), the exception is caught and an error
string is returned. -/
def OllamaAgent.run (llm : List Message → LLMResult) (tn : List Message → List Message)
    (max_iterations fuel : Nat) (task : String) : String :=
  match graph_invoke llm tn max_iterations fuel (initial_state task max_iterations) with
  | (some final_state, _) =>
    match final_state.messages.getLast? with
    | some last_message => last_message.content
    | none => "No response generated."
  | (none, _) => "Error running agent: GraphRecursionError"

/-!
## src/backend/usage/ollama_service.py
-/

/-- The `message` dict of an Ollama chat response (`content` may be
absent: `.get('content', ...)`). -/
structure ChatMessageDict where
  content : Option String
  deriving DecidableEq, Repr

/-- An Ollama chat response dict (`message` may be absent:
`.get('message', {})`). -/
structure ChatResponse where
  message : Option ChatMessageDict
  deriving DecidableEq, Repr

/-- `response_raw.get('message', {}).get('content', '{}')` as computed by
`ask_ollama_structured` (the default for a missing content key is the
two-character string holding an open and a close brace). -/
def structured_response_content (response_raw : ChatResponse) : String :=
  ((response_raw.message.getD { content := none }).content).getD "\x7b\x7d"

/-- `ask_ollama_structured`, after the `client.chat` call has produced
`response_raw` (a `client.chat` failure raises `ollama.ResponseError`
before this code runs and is outside the function's own handling).
`parse` is the oracle for `json.loads`: `Except.error` is a
`json.JSONDecodeError` with its message.  The Python code catches the
decode error, prints a warning, and re-raises the same exception;
it returns the parsed value unchanged on success. -/
def ask_ollama_structured {α : Type} (parse : String → Except String α)
    (response_raw : ChatResponse) : Except String α :=
  let response_content := structured_response_content response_raw
  match parse response_content with
  | Except.ok d => Except.ok d
  | Except.error e => Except.error e

/-!
## src/backend/langgraph-project/example_usage.py — class OllamaClient
-/

/-- Outcome of the `requests.get(f"{self.host}/api/version", ...)` probe
in `check_connection`: either an HTTP response with a status code, or
any exception raised by the request. -/
inductive ProbeResult where
  | response (status_code : Nat)
  | exn (e : String)
  deriving DecidableEq, Repr

/-- `OllamaClient.check_connection`: true exactly when the probe
returned status 200; every exception is caught, printed, and turned
into `False`. -/
def OllamaClient.check_connection (probe : ProbeResult) : Bool :=
  match probe with
  | .response status_code => status_code == 200
  | .exn _ => false

/-- An Ollama `client.list()` response dict; the `models` key (a list of
model dicts, kept abstract) may be absent: `.get('models', [])`. -/
structure ModelsResponse (α : Type) where
  models : Option (List α)
  deriving DecidableEq, Repr

/-- `OllamaClient.list_models`: returns the `models` list of the
response, or the empty list when the key is missing or the call raised
(the exception is caught and printed). -/
def OllamaClient.list_models {α : Type} (call : Except String (ModelsResponse α)) :
    List α :=
  match call with
  | .ok models => models.models.getD []
  | .error _ => []

/-- An Ollama `client.generate` response or stream chunk
(`.get('response', '')`). -/
structure GenerateResponse where
  response : Option String
  deriving DecidableEq, Repr

/-- `OllamaClient.generate` with `stream=False`: returns the `response`
field (default empty string); any exception is caught, printed, and
converted to `None`. -/
def OllamaClient.generate (call : Except String GenerateResponse) : Option String :=
  match call with
  | .ok response => some (response.response.getD "")
  | .error _ => none

/-- `OllamaClient.generate` with `stream=True`: concatenates the
`response` field of every chunk; any exception is caught, printed, and
converted to `None`. -/
def OllamaClient.generate_stream (call : Except String (List GenerateResponse)) :
    Option String :=
  match call with
  | .ok chunks => some (String.join (chunks.map fun chunk => chunk.response.getD ""))
  | .error _ => none

/-- `chunk.get('message', {}).get('content', '')` as computed by
`OllamaClient.chat` (default empty string, unlike the structured
service's brace-pair default). -/
def chat_message_content (chunk : ChatResponse) : String :=
  ((chunk.message.getD { content := none }).content).getD ""

/-- `OllamaClient.chat` with `stream=False`: returns the message content
(default empty string); any exception is caught, printed, and converted
to `None`. -/
def OllamaClient.chat (call : Except String ChatResponse) : Option String :=
  match call with
  | .ok response => some (chat_message_content response)
  | .error _ => none

/-- `OllamaClient.chat` with `stream=True`: concatenates the message
content of every chunk; any exception is caught, printed, and converted
to `None`. -/
def OllamaClient.chat_stream (call : Except String (List ChatResponse)) :
    Option String :=
  match call with
  | .ok chunks => some (String.join (chunks.map chat_message_content))
  | .error _ => none

/-!
## langgraph_agent.py — the five tools
-/

/-- The `calculate` tool.  `eval_oracle` models Python's
`eval(expression, ..., ...)`: it yields the string form of the
evaluated value, or raises.  On success the tool returns
`"Result: ..."`; every exception is caught and rendered as an
`"Error calculating: ..."` string — the tool itself never raises. -/
def calculate (eval_oracle : String → Except String String) (expression : String) :
    String :=
  match eval_oracle expression with
  | Except.ok result => "Result: " ++ result
  | Except.error e => "Error calculating: " ++ e

/-- The `get_current_time` tool: returns
`datetime.now().strftime("%Y-%m-%d %H:%M:%S")`, the formatted clock
reading supplied by the environment. -/
def get_current_time (now : String) : String :=
  now

/-- Outcome of `subprocess.run(["docker", "ps"], ...)`: a completed
process with return code and captured stdout, or an exception (for
example the 5-second timeout). -/
inductive SubprocResult where
  | completed (returncode : Int) (stdout : String)
  | raised (e : String)
  deriving DecidableEq, Repr

/-- The `check_docker_status` tool.  On return code 0 it reports
`len(result.stdout.strip().split('\n')) - 1` active containers; on any
other return code a fixed not-running message; every exception is
caught and rendered as a string. -/
def check_docker_status (docker_ps : SubprocResult) : String :=
  match docker_ps with
  | .completed returncode stdout =>
    if returncode == 0 then
      let container_count := (stdout.trim.splitOn "\n").length - 1
      "Docker is running. " ++ toString container_count ++ " container(s) active."
    else
      "Docker is not running or not accessible."
  | .raised e => "Cannot check Docker status: " ++ e

/-- The static documentation table of `search_documentation`, in dict
insertion order. -/
def docs : List (String × String) :=
  [("docker", "Docker is a platform for developing, shipping, and running applications in containers. Key commands: docker run, docker build, docker ps."),
   ("ollama", "Ollama is a tool for running large language models locally. Use \x27ollama pull\x27 to download models and \x27ollama run\x27 to interact with them."),
   ("langgraph", "LangGraph is a library for building stateful, multi-actor applications with LLMs. It uses graphs to define agent workflows."),
   ("zscaler", "Zscaler is a cloud security platform. For Docker, add the Zscaler root certificate to the container\x27s trust store.")]

/-- The `search_documentation` tool: returns the first entry whose key
occurs in the lowercased query, else a fixed fallback string. -/
def search_documentation (query : String) : String :=
  let query_lower := py_lower query
  match docs.find? fun kv => py_in kv.1 query_lower with
  | some kv => "Documentation for \x27" ++ kv.1 ++ "\x27: " ++ kv.2
  | none => "No documentation found for that query. Try: docker, ollama, langgraph, or zscaler."

/-- The `write_to_memory` tool: builds and returns the confirmation
string and does nothing else (the source comments that a real
implementation would persist; this one only confirms). -/
def write_to_memory (key : String) (value : String) : String :=
  "Stored \x27" ++ key ++ "\x27 = \x27" ++ value ++ "\x27 in memory."

/-- The ambient inputs the tools draw on (Python `eval`, the clock, the
`docker ps` subprocess). -/
structure ToolEnv where
  eval_oracle : String → Except String String
  now : String
  docker_ps : SubprocResult

/-- The static tool registry (`tools = [calculate, get_current_time,
check_docker_status, search_documentation, write_to_memory]`), as an
association of tool name to tool function; arguments are passed
positionally as strings. -/
def tools : List (String × (ToolEnv → List String → String)) :=
  [("calculate", fun env args => calculate env.eval_oracle (args.headD "")),
   ("get_current_time", fun env _ => get_current_time env.now),
   ("check_docker_status", fun env _ => check_docker_status env.docker_ps),
   ("search_documentation", fun _ args => search_documentation (args.headD "")),
   ("write_to_memory", fun _ args => write_to_memory (args.headD "") ((args.drop 1).headD ""))]

/-- State-passing rendering of a `write_to_memory` call against an
explicit key-value store: the source function receives no store and
returns only its confirmation string, so the store component is passed
through untouched. -/
def write_to_memory_step (store : List (String × String)) (key value : String) :
    List (String × String) × String :=
  (store, write_to_memory key value)

/-!
## Helper lemmas about the agent loop
-/

/-- The message `_agent_node` appends for each shape of LLM outcome
(plain string, message object, raised exception). -/
def response_to_message : LLMResult → Message
  | .strResp s => .ai s []
  | .msgResp m => m
  | .exn e => .ai ("Error: " ++ e) []

lemma agent_node_of_le (llm : List Message → LLMResult) (N : Nat) (st : AgentState)
    (h : N ≤ st.iterations) :
    OllamaAgent.agent_node llm N st =
      ({ st with
          messages := st.messages ++ st.messages,
          result := "Maximum iterations reached." }, 0) := by
  unfold OllamaAgent.agent_node
  rw [if_pos h]

lemma agent_node_of_lt (llm : List Message → LLMResult) (N : Nat) (st : AgentState)
    (h : st.iterations < N) :
    OllamaAgent.agent_node llm N st =
      ({ st with
          messages := st.messages ++ [response_to_message (llm (system_message :: st.messages))],
          iterations := st.iterations + 1 }, 1) := by
  unfold OllamaAgent.agent_node response_to_message
  rw [if_neg (Nat.not_le.mpr h)]
  cases llm (system_message :: st.messages) <;> rfl

lemma should_continue_some (N : Nat) (st : AgentState) (last : Message)
    (hm : st.messages.getLast? = some last) :
    OllamaAgent.should_continue N st =
      (if N ≤ st.iterations then "end"
       else if last.tool_calls ≠ [] then "continue"
       else if last.isAI &&
          (tool_indicators.any fun indicator => py_in indicator (py_lower last.content)) then
         "continue"
       else "end") := by
  unfold OllamaAgent.should_continue
  rw [hm]

lemma should_continue_of_le (N : Nat) (st : AgentState) (h : N ≤ st.iterations) :
    OllamaAgent.should_continue N st = "end" := by
  unfold OllamaAgent.should_continue
  cases st.messages.getLast? with
  | none => rfl
  | some last => simp [h]

lemma continue_imp_lt (N : Nat) (st : AgentState)
    (h : OllamaAgent.should_continue N st = "continue") : st.iterations < N := by
  by_contra hge
  rw [should_continue_of_le N st (Nat.le_of_not_lt hge)] at h
  exact absurd h (by decide)

lemma tools_node_iterations (tn : List Message → List Message) (st : AgentState) :
    (tools_node tn st).iterations = st.iterations := rfl

lemma tools_node_result (tn : List Message → List Message) (st : AgentState) :
    (tools_node tn st).result = st.result := rfl

lemma graph_invoke_succ (llm : List Message → LLMResult) (tn : List Message → List Message)
    (N fuel : Nat) (st : AgentState) :
    graph_invoke llm tn N (fuel + 1) st =
      (if OllamaAgent.should_continue N (OllamaAgent.agent_node llm N st).1 = "continue" then
        ((graph_invoke llm tn N fuel (tools_node tn (OllamaAgent.agent_node llm N st).1)).1,
         (OllamaAgent.agent_node llm N st).2 +
           (graph_invoke llm tn N fuel (tools_node tn (OllamaAgent.agent_node llm N st).1)).2)
      else (some (OllamaAgent.agent_node llm N st).1, (OllamaAgent.agent_node llm N st).2)) :=
  rfl

/-- Main budget invariant: starting from a state whose counter is within
the budget, the loop adds at most `N - iterations` further model calls,
and any final state it reaches keeps the counter within the budget. -/
lemma graph_invoke_budget (llm : List Message → LLMResult) (tn : List Message → List Message)
    (N : Nat) :
    ∀ fuel st, st.iterations ≤ N →
      st.iterations + (graph_invoke llm tn N fuel st).2 ≤ N ∧
      ∀ final, (graph_invoke llm tn N fuel st).1 = some final → final.iterations ≤ N := by
  intro fuel
  induction fuel with
  | zero =>
    intro st h
    refine ⟨by simpa [graph_invoke] using h, ?_⟩
    intro final hf
    simp [graph_invoke] at hf
  | succ fuel ih =>
    intro st h
    rcases Nat.lt_or_ge st.iterations N with hlt | hge
    · rw [graph_invoke_succ, agent_node_of_lt llm N st hlt]
      dsimp only
      by_cases hc : OllamaAgent.should_continue N
          { st with
            messages := st.messages ++
              [response_to_message (llm (system_message :: st.messages))],
            iterations := st.iterations + 1 } = "continue"
      · rw [if_pos hc]
        have hlt' := continue_imp_lt _ _ hc
        dsimp only at hlt'
        have hrec := ih (tools_node tn
          { st with
            messages := st.messages ++
              [response_to_message (llm (system_message :: st.messages))],
            iterations := st.iterations + 1 })
          (by rw [tools_node_iterations]; dsimp only; omega)
        rw [tools_node_iterations] at hrec
        dsimp only at hrec
        obtain ⟨h1, h2⟩ := hrec
        exact ⟨by dsimp only; omega, h2⟩
      · rw [if_neg hc]
        refine ⟨by dsimp only; omega, ?_⟩
        intro final hf
        have hfe := Option.some.inj hf
        subst hfe
        dsimp only
        omega
    · rw [graph_invoke_succ, agent_node_of_le llm N st hge]
      dsimp only
      have hend : OllamaAgent.should_continue N
          { st with
            messages := st.messages ++ st.messages,
            result := "Maximum iterations reached." } = "end" :=
        should_continue_of_le _ _ hge
      rw [hend, if_neg (show ¬(("end" : String) = "continue") by decide)]
      refine ⟨by omega, ?_⟩
      intro final hf
      have hfe := Option.some.inj hf
      subst hfe
      dsimp only
      omega

/-- When the loop is entered with the counter strictly below the budget,
no agent turn ever takes the `iterations >= max_iterations` branch, so
the `result` field of any final state is exactly what it was at entry. -/
lemma graph_invoke_result_preserved (llm : List Message → LLMResult)
    (tn : List Message → List Message) (N : Nat) :
    ∀ fuel st, st.iterations < N →
      ∀ final, (graph_invoke llm tn N fuel st).1 = some final → final.result = st.result := by
  intro fuel
  induction fuel with
  | zero =>
    intro st _ final hf
    simp [graph_invoke] at hf
  | succ fuel ih =>
    intro st hlt final hf
    rw [graph_invoke_succ, agent_node_of_lt llm N st hlt] at hf
    dsimp only at hf
    by_cases hc : OllamaAgent.should_continue N
        { st with
          messages := st.messages ++
            [response_to_message (llm (system_message :: st.messages))],
          iterations := st.iterations + 1 } = "continue"
    · rw [if_pos hc] at hf
      have hlt' := continue_imp_lt _ _ hc
      dsimp only at hlt'
      have := ih (tools_node tn
        { st with
          messages := st.messages ++
            [response_to_message (llm (system_message :: st.messages))],
          iterations := st.iterations + 1 })
        (by rw [tools_node_iterations]; dsimp only; omega) final hf
      rw [tools_node_result] at this
      dsimp only at this
      exact this
    · rw [if_neg hc] at hf
      have hfe := Option.some.inj hf
      subst hfe
      rfl

/-- A final message carrying no tool indicator (empty `tool_calls` and no
keyword occurring in its lowercased content) makes `_should_continue`
answer "end" for every budget and counter value. -/
lemma should_continue_no_indicator (N : Nat) (st : AgentState) (m : Message)
    (hm : st.messages.getLast? = some m)
    (h1 : m.tool_calls = [])
    (h2 : (tool_indicators.any fun indicator => py_in indicator (py_lower m.content)) = false) :
    OllamaAgent.should_continue N st = "end" := by
  rw [should_continue_some N st m hm]
  by_cases hle : N ≤ st.iterations
  · rw [if_pos hle]
  · rw [if_neg hle, if_neg (by simp [h1]), if_neg (by simp [h2])]

/-!
## Claim theorems
-/

/-- Concrete demonstration oracles used by witnesses below. -/
def llm_demo : List Message → LLMResult := fun _ => LLMResult.strResp "done"

def tn_demo : List Message → List Message := fun _ => [Message.toolMsg "ok"]

def llm_plain : List Message → LLMResult := fun _ => LLMResult.strResp "The answer is 4."

/-- C1: for every iteration budget N ≥ 0 a run of the agent loop makes
at most N model calls; starting from the initial counter 0 both step
functions keep the counter within the budget, `_agent_node` calls the
model and increments the counter exactly when `iterations <
max_iterations`, and once `iterations ≥ max_iterations` it returns
without a model call and without touching the counter. -/
theorem agent_loop_call_budget (llm : List Message → LLMResult)
    (tn : List Message → List Message) (N fuel : Nat) (task : String) :
    (graph_invoke llm tn N fuel (initial_state task N)).2 ≤ N
    ∧ (∀ final, (graph_invoke llm tn N fuel (initial_state task N)).1 = some final →
        final.iterations ≤ N)
    ∧ (initial_state task N).iterations = 0
    ∧ (∀ st : AgentState, st.iterations ≤ N →
        (OllamaAgent.agent_node llm N st).1.iterations ≤ N ∧
        (tools_node tn st).iterations = st.iterations)
    ∧ (∀ st : AgentState, st.iterations < N →
        (OllamaAgent.agent_node llm N st).2 = 1 ∧
        (OllamaAgent.agent_node llm N st).1.iterations = st.iterations + 1)
    ∧ (∀ st : AgentState, N ≤ st.iterations →
        (OllamaAgent.agent_node llm N st).2 = 0 ∧
        (OllamaAgent.agent_node llm N st).1.iterations = st.iterations) := by
  have hb := graph_invoke_budget llm tn N fuel (initial_state task N) (Nat.zero_le N)
  refine ⟨?_, hb.2, rfl, ?_, ?_, ?_⟩
  · have h1 := hb.1
    dsimp only [initial_state] at h1
    omega
  · intro st hle
    rcases Nat.lt_or_ge st.iterations N with hlt | hge
    · rw [agent_node_of_lt llm N st hlt]
      exact ⟨by dsimp only; omega, rfl⟩
    · rw [agent_node_of_le llm N st hge]
      exact ⟨by dsimp only; omega, rfl⟩
  · intro st hlt
    rw [agent_node_of_lt llm N st hlt]
    exact ⟨rfl, rfl⟩
  · intro st hge
    rw [agent_node_of_le llm N st hge]
    exact ⟨rfl, rfl⟩

/-- Witness for C1 at budget 2 with concrete oracles. -/
theorem agent_loop_call_budget_witness :
    (graph_invoke llm_demo tn_demo 2 5 (initial_state "hi" 2)).2 ≤ 2 ∧
    (OllamaAgent.agent_node llm_demo 2 (initial_state "hi" 2)).2 = 1 ∧
    (OllamaAgent.agent_node llm_demo 2
      { initial_state "hi" 2 with iterations := 2 }).2 = 0 :=
  ⟨(agent_loop_call_budget llm_demo tn_demo 2 5 "hi").1,
   ((agent_loop_call_budget llm_demo tn_demo 2 5 "hi").2.2.2.2.1 (initial_state "hi" 2)
      (by decide)).1,
   ((agent_loop_call_budget llm_demo tn_demo 2 5 "hi").2.2.2.2.2
      { initial_state "hi" 2 with iterations := 2 } (by decide)).1⟩

/-- C2: after an agent turn the loop proceeds to the tool node iff the
counter is below the budget AND the latest message requests a tool —
non-empty `tool_calls`, or (fallback) an `AIMessage` whose lowercased
content contains one of the five keywords as a substring; in every other
case the decision is "end" (the decision is always one of the two). -/
theorem continuation_rule_characterized (N : Nat) (st : AgentState) (last : Message)
    (h : st.messages.getLast? = some last) :
    (OllamaAgent.should_continue N st = "continue" ↔
      st.iterations < N ∧
        (last.tool_calls ≠ [] ∨
          last.isAI = true ∧
            ∃ keyword ∈ (["calculate", "time", "docker", "search", "memory"] : List String),
              py_in keyword (py_lower last.content) = true))
    ∧ (OllamaAgent.should_continue N st = "continue" ∨
       OllamaAgent.should_continue N st = "end") := by
  rw [should_continue_some N st last h]
  refine ⟨?_, ?_⟩
  · split_ifs with h1 h2 h3
    · exact iff_of_false (by decide) (fun hcon => absurd hcon.1 (Nat.not_lt.mpr h1))
    · exact iff_of_true rfl ⟨Nat.lt_of_not_le h1, Or.inl h2⟩
    · rw [Bool.and_eq_true] at h3
      refine iff_of_true rfl ⟨Nat.lt_of_not_le h1, Or.inr ⟨h3.1, ?_⟩⟩
      have := h3.2
      rw [List.any_eq_true] at this
      obtain ⟨keyword, hk, hin⟩ := this
      exact ⟨keyword, by simpa [tool_indicators] using hk, hin⟩
    · refine iff_of_false (by decide) (fun hcon => ?_)
      rcases hcon with ⟨hlt, htc | ⟨hai, keyword, hk, hin⟩⟩
      · exact h2 htc
      · refine h3 ?_
        rw [Bool.and_eq_true]
        refine ⟨hai, ?_⟩
        rw [List.any_eq_true]
        exact ⟨keyword, by simpa [tool_indicators] using hk, hin⟩
  · split_ifs <;> simp

/-- Witness for C2: a last `AIMessage` mentioning "calculate" with the
counter below the budget yields "continue". -/
theorem continuation_rule_characterized_witness :
    OllamaAgent.should_continue 5
      { messages := [Message.human "q", Message.ai "Let me calculate that" []],
        task := "q", result := "", iterations := 1, max_iterations := 5 } = "continue" :=
  (continuation_rule_characterized 5
      { messages := [Message.human "q", Message.ai "Let me calculate that" []],
        task := "q", result := "", iterations := 1, max_iterations := 5 }
      (Message.ai "Let me calculate that" []) rfl).1.mpr
    (by refine ⟨by decide, Or.inr ⟨rfl, "calculate", by decide, by decide⟩⟩)

/-- C3: if the model's response to the first turn has empty `tool_calls`
and none of the fallback keywords in its lowercased content, the run
terminates after exactly one turn with exactly one model call. -/
theorem no_indicator_single_turn (llm : List Message → LLMResult)
    (tn : List Message → List Message) (N fuel : Nat) (task : String)
    (hN : 1 ≤ N)
    (h1 : (response_to_message (llm [system_message, Message.human task])).tool_calls = [])
    (h2 : (tool_indicators.any fun indicator =>
        py_in indicator
          (py_lower (response_to_message (llm [system_message, Message.human task])).content))
      = false) :
    graph_invoke llm tn N (fuel + 1) (initial_state task N) =
      (some { messages := [Message.human task,
                response_to_message (llm [system_message, Message.human task])],
              task := task, result := "", iterations := 1, max_iterations := N }, 1) := by
  have h0 : (initial_state task N).iterations < N := hN
  have hstep : OllamaAgent.agent_node llm N (initial_state task N) =
      ({ messages := [Message.human task,
            response_to_message (llm [system_message, Message.human task])],
         task := task, result := "", iterations := 1, max_iterations := N }, 1) := by
    rw [agent_node_of_lt llm N _ h0]
    rfl
  have hend : OllamaAgent.should_continue N
      { messages := [Message.human task,
          response_to_message (llm [system_message, Message.human task])],
        task := task, result := "", iterations := 1, max_iterations := N } = "end" :=
    should_continue_no_indicator N _
      (response_to_message (llm [system_message, Message.human task])) rfl h1 h2
  rw [graph_invoke_succ, hstep]
  dsimp only
  rw [hend, if_neg (show ¬(("end" : String) = "continue") by decide)]

/-- Witness for C3: a plain-text answer ends the run after one call. -/
theorem no_indicator_single_turn_witness :
    graph_invoke llm_plain tn_demo 3 1 (initial_state "q" 3) =
      (some { messages := [Message.human "q", Message.ai "The answer is 4." []],
              task := "q", result := "", iterations := 1, max_iterations := 3 }, 1) :=
  no_indicator_single_turn llm_plain tn_demo 3 0 "q" (by decide) (by decide) (by decide)

/-- A model oracle that always throws "boom". -/
def llm_boom : List Message → LLMResult := fun _ => LLMResult.exn "boom"

/-- A model oracle that always answers with a tool-calling `AIMessage`. -/
def llm_tool : List Message → LLMResult :=
  fun _ => LLMResult.msgResp (Message.ai "using a tool" ["call-1"])

/-- C4 counterexample: with a model that always throws "boom" and budget
3, the exception is caught, logged into the history as an `AIMessage`
"Error: boom", and the counter is incremented — but the loop then
terminates after this single turn (1 model call, though the budget would
allow 3): it does not continue up to the budget. -/
theorem error_turn_counterexample :
    graph_invoke llm_boom tn_demo 3 10 (initial_state "t" 3) =
      (some { messages := [Message.human "t", Message.ai "Error: boom" []],
              task := "t", result := "", iterations := 1, max_iterations := 3 }, 1)
    ∧ (1 : Nat) < 3 := by
  exact ⟨rfl, by decide⟩

/-- C4 (amended): a throwing model call is caught inside `_agent_node`
and converted into an appended `AIMessage` whose content is
"Error: <exception text>", with the iteration counter incremented and
the turn counted as one model call; the loop does not crash but
proceeds to the ordinary continuation check, so it continues exactly
when the counter is still below the budget and the error text itself
contains a tool keyword, and terminates otherwise. -/
theorem error_caught_and_loop_proceeds (llm : List Message → LLMResult)
    (N : Nat) (st : AgentState) (e : String)
    (hlt : st.iterations < N)
    (hexn : llm (system_message :: st.messages) = LLMResult.exn e) :
    OllamaAgent.agent_node llm N st =
      ({ st with
          messages := st.messages ++ [Message.ai ("Error: " ++ e) []],
          iterations := st.iterations + 1 }, 1)
    ∧ (OllamaAgent.should_continue N (OllamaAgent.agent_node llm N st).1 = "continue" ↔
        st.iterations + 1 < N ∧
          (tool_indicators.any fun indicator =>
            py_in indicator (py_lower ("Error: " ++ e))) = true) := by
  have hstep : OllamaAgent.agent_node llm N st =
      ({ st with
          messages := st.messages ++ [Message.ai ("Error: " ++ e) []],
          iterations := st.iterations + 1 }, 1) := by
    rw [agent_node_of_lt llm N st hlt, hexn]
    rfl
  refine ⟨hstep, ?_⟩
  rw [hstep]
  dsimp only
  rw [should_continue_some N _ (Message.ai ("Error: " ++ e) []) (List.getLast?_concat _)]
  dsimp only [Message.tool_calls, Message.isAI, Message.content]
  rw [if_neg (show ¬(([] : List String) ≠ []) from fun hn => hn rfl)]
  rw [Bool.true_and]
  by_cases hle : N ≤ st.iterations + 1
  · rw [if_pos hle]
    exact iff_of_false (by decide) (fun hcon => absurd hcon.1 (by omega))
  · rw [if_neg hle]
    by_cases hkw : (tool_indicators.any fun indicator =>
        py_in indicator (py_lower ("Error: " ++ e))) = true
    · rw [if_pos hkw]
      exact iff_of_true rfl ⟨by omega, hkw⟩
    · rw [if_neg hkw]
      exact iff_of_false (by decide) (fun hcon => hkw hcon.2)

/-- Witness for C4 (amended): the "boom" exception at counter 0,
budget 2. -/
theorem error_caught_and_loop_proceeds_witness :
    OllamaAgent.agent_node llm_boom 2 (initial_state "t" 2) =
      ({ initial_state "t" 2 with
          messages := [Message.human "t"] ++ [Message.ai ("Error: " ++ "boom") []],
          iterations := 1 }, 1) :=
  (error_caught_and_loop_proceeds llm_boom 2 (initial_state "t" 2) "boom"
    (by decide) rfl).1

/-- C5 counterexample: with budget 1 and a model that always requests a
tool, the run exhausts the budget (the counter reaches 1 = budget and
the continuation check ends the loop), yet the final state's `result`
field is the initial empty string, not "Maximum iterations reached.". -/
theorem budget_result_field_counterexample :
    graph_invoke llm_tool tn_demo 1 10 (initial_state "t" 1) =
      (some { messages := [Message.human "t", Message.ai "using a tool" ["call-1"]],
              task := "t", result := "", iterations := 1, max_iterations := 1 }, 1)
    ∧ Option.map AgentState.result (graph_invoke llm_tool tn_demo 1 10 (initial_state "t" 1)).1
        ≠ some "Maximum iterations reached." := by
  refine ⟨rfl, ?_⟩
  decide

/-- C5 (amended): `run` always terminates normally and returns a string
once the graph finishes; but the `result` field is set to
"Maximum iterations reached." only when `_agent_node` is entered with
the counter already at or past the budget — in a fresh run that happens
exactly when `max_iterations = 0` (re-entries require the continuation
check to pass with `iterations < max_iterations`); for every budget
N ≥ 1 a finishing run leaves `result` at its initial empty string, so
budget exhaustion is reported only through the returned message
content. -/
theorem budget_exhaustion_reporting (llm : List Message → LLMResult)
    (tn : List Message → List Message) (N fuel : Nat) (task : String) (st : AgentState) :
    (N ≤ st.iterations →
      (OllamaAgent.agent_node llm N st).1.result = "Maximum iterations reached." ∧
      (OllamaAgent.agent_node llm N st).2 = 0)
    ∧ graph_invoke llm tn 0 (fuel + 1) (initial_state task 0) =
        (some { messages := [Message.human task, Message.human task], task := task,
                result := "Maximum iterations reached.", iterations := 0,
                max_iterations := 0 }, 0)
    ∧ OllamaAgent.run llm tn 0 (fuel + 1) task = task
    ∧ (1 ≤ N → ∀ final,
        (graph_invoke llm tn N fuel (initial_state task N)).1 = some final →
        final.result = "") := by
  have hstep0 : OllamaAgent.agent_node llm 0 (initial_state task 0) =
      ({ messages := [Message.human task, Message.human task], task := task,
         result := "Maximum iterations reached.", iterations := 0,
         max_iterations := 0 }, 0) := by
    rw [agent_node_of_le llm 0 (initial_state task 0) (Nat.zero_le _)]
    rfl
  have hrun0 : graph_invoke llm tn 0 (fuel + 1) (initial_state task 0) =
      (some { messages := [Message.human task, Message.human task], task := task,
              result := "Maximum iterations reached.", iterations := 0,
              max_iterations := 0 }, 0) := by
    rw [graph_invoke_succ, hstep0]
    dsimp only
    rw [should_continue_of_le 0
        { messages := [Message.human task, Message.human task], task := task,
          result := "Maximum iterations reached.", iterations := 0,
          max_iterations := 0 } (Nat.zero_le _),
      if_neg (show ¬(("end" : String) = "continue") by decide)]
  refine ⟨?_, hrun0, ?_, ?_⟩
  · intro hge
    rw [agent_node_of_le llm N st hge]
    exact ⟨rfl, rfl⟩
  · unfold OllamaAgent.run
    rw [hrun0]
    rfl
  · intro hN final hf
    have hres := graph_invoke_result_preserved llm tn N fuel (initial_state task N)
      (show (initial_state task N).iterations < N from hN) final hf
    simpa [initial_state] using hres

/-- Witness for C5 (amended): the limit branch fires at counter = budget
= 1, and a zero-budget run returns the task text itself. -/
theorem budget_exhaustion_reporting_witness :
    (OllamaAgent.agent_node llm_tool 1
        { initial_state "t" 1 with iterations := 1 }).1.result =
      "Maximum iterations reached." ∧
    OllamaAgent.run llm_tool tn_demo 0 11 "t" = "t" :=
  ⟨((budget_exhaustion_reporting llm_tool tn_demo 1 10 "t"
      { initial_state "t" 1 with iterations := 1 }).1 (by decide)).1,
   (budget_exhaustion_reporting llm_tool tn_demo 1 10 "t"
      { initial_state "t" 1 with iterations := 1 }).2.2.1⟩

/-- C6: `ask_ollama_structured` raises a JSON decode failure exactly when
the response's message content does not parse as JSON, and when the
content parses it returns precisely the parsed value — nothing is
swallowed or substituted in either direction. -/
theorem structured_json_decode_faithful (α : Type) (parse : String → Except String α)
    (response_raw : ChatResponse) :
    (∀ e, ask_ollama_structured parse response_raw = Except.error e ↔
        parse (structured_response_content response_raw) = Except.error e)
    ∧ (∀ d, ask_ollama_structured parse response_raw = Except.ok d ↔
        parse (structured_response_content response_raw) = Except.ok d) := by
  have heq : ask_ollama_structured parse response_raw =
      parse (structured_response_content response_raw) := by
    unfold ask_ollama_structured
    dsimp only
    cases hp : parse (structured_response_content response_raw) <;> rfl
  rw [heq]
  exact ⟨fun e => Iff.rfl, fun d => Iff.rfl⟩

/-- C7: the connection probe is a total Boolean: `True` exactly on an
HTTP 200 response to the version request, `False` on any other status
and on every exception — nothing escapes the probe. -/
theorem connection_probe_boolean (probe : ProbeResult) :
    (OllamaClient.check_connection probe = true ↔ probe = ProbeResult.response 200)
    ∧ (∀ e, OllamaClient.check_connection (ProbeResult.exn e) = false) := by
  refine ⟨?_, fun e => rfl⟩
  cases probe with
  | response status_code => simp [OllamaClient.check_connection]
  | exn e => simp [OllamaClient.check_connection]

/-- C8: every client-call failure is converted at the call site into a
`None`/empty result (`generate` and `chat` in both modes return `None`,
`list_models` returns the empty list), and a JSON decode failure in the
structured service surfaces as an error value rather than a crash. -/
theorem client_failures_converted (α : Type) (e : String)
    (parse : String → Except String α) (response_raw : ChatResponse) :
    OllamaClient.generate (Except.error e) = none
    ∧ OllamaClient.generate_stream (Except.error e) = none
    ∧ OllamaClient.chat (Except.error e) = none
    ∧ OllamaClient.chat_stream (Except.error e) = none
    ∧ @OllamaClient.list_models α (Except.error e) = []
    ∧ (∀ msg, parse (structured_response_content response_raw) = Except.error msg →
        ask_ollama_structured parse response_raw = Except.error msg) := by
  refine ⟨rfl, rfl, rfl, rfl, rfl, ?_⟩
  intro msg hmsg
  exact ((structured_json_decode_faithful α parse response_raw).1 msg).mpr hmsg

/-- A concrete always-failing JSON parse oracle for the C8 witness. -/
def parse_fail : String → Except String Nat := fun _ => Except.error "Expecting value"

/-- Witness for C8 at a concrete failing parse and a response with no
message key. -/
theorem client_failures_converted_witness :
    OllamaClient.generate (Except.error "connection refused") = none ∧
    ask_ollama_structured parse_fail { message := none } =
      Except.error "Expecting value" :=
  ⟨(client_failures_converted Nat "connection refused" parse_fail { message := none }).1,
   (client_failures_converted Nat "connection refused" parse_fail
      { message := none }).2.2.2.2.2 "Expecting value" rfl⟩

/-- C9: the tool registry is static with exactly the five entries
`calculate`, `get_current_time`, `check_docker_status`,
`search_documentation`, `write_to_memory`; every registered tool yields
a string on every environment and argument list; and `calculate` maps a
failed evaluation to an "Error calculating: ..." string (and a
successful one to a "Result: ..." string) instead of raising. -/
theorem tool_registry_static_total (eval_oracle : String → Except String String)
    (expression e result : String) :
    tools.map Prod.fst =
      ["calculate", "get_current_time", "check_docker_status",
       "search_documentation", "write_to_memory"]
    ∧ tools.length = 5
    ∧ (eval_oracle expression = Except.error e →
        calculate eval_oracle expression = "Error calculating: " ++ e)
    ∧ (eval_oracle expression = Except.ok result →
        calculate eval_oracle expression = "Result: " ++ result)
    ∧ (∀ t ∈ tools, ∀ env args, ∃ s : String, t.2 env args = s) := by
  refine ⟨rfl, rfl, ?_, ?_, ?_⟩
  · intro h
    unfold calculate
    rw [h]
  · intro h
    unfold calculate
    rw [h]
  · intro t _ env args
    exact ⟨t.2 env args, rfl⟩

/-- Witness for C9: `eval` failing with "division by zero". -/
theorem tool_registry_static_total_witness :
    calculate (fun _ => Except.error "division by zero") "1/0" =
      "Error calculating: " ++ "division by zero" :=
  (tool_registry_static_total (fun _ => Except.error "division by zero")
      "1/0" "division by zero" "").2.2.1 rfl

/-- C10: `write_to_memory` only builds its confirmation string: paired
with any explicit key-value store it leaves the store untouched, so
every later lookup — for any key, including the one just "written" —
sees exactly the prior store and the value can never be retrieved. -/
theorem write_to_memory_no_mutation (store : List (String × String))
    (key value lookup_key : String) :
    write_to_memory key value =
      "Stored \x27" ++ key ++ "\x27 = \x27" ++ value ++ "\x27 in memory."
    ∧ (write_to_memory_step store key value).1 = store
    ∧ (write_to_memory_step store key value).2 = write_to_memory key value
    ∧ (write_to_memory_step store key value).1.lookup lookup_key = store.lookup lookup_key :=
  ⟨rfl, rfl, rfl, rfl⟩
